import Mathlib

/-!
Verification of the gesture-driven phase machine, gesture classifier,
hand-sample update, audio frequency mapping, theme-service fallback and
procedural tree generator of the quantum-tree repository.

Shallow embedding conventions:
* JavaScript floating-point numbers are modelled as real numbers (`ℝ`);
  values produced directly by the uniform random source `Math.random()`
  are modelled as rationals (`ℚ`) so that the control flow that branches
  on them stays decidable.
* `Math.random()` is modelled as a stream `ℕ → ℚ` of values together with
  a cursor; each draw reads the value at the cursor and advances it.
* External collaborators (the MediaPipe landmark model, the LLM theme
  service, `JSON.parse`) are modelled as inputs or function parameters.
-/

set_option maxRecDepth 4000
set_option maxHeartbeats 1000000

namespace YL

/-! ## Gestures, phases and the phase state machine (App.tsx, SceneContainer.tsx) -/

/-- Gesture labels, from `types.ts`: `'OPEN' | 'FIST' | 'NONE'`. -/
inductive Gesture where
  | NONE
  | OPEN
  | FIST
  deriving DecidableEq, Repr

/-- Application phases, from `types.ts`: `'SNOW' | 'GATHER' | 'TREE'`. -/
inductive Phase where
  | SNOW
  | GATHER
  | TREE
  deriving DecidableEq, Repr

/-- One per-frame evaluation of the phase logic in `InteractionHandler`
(SceneContainer.tsx): `SNOW` with gesture `OPEN` moves to `GATHER`;
`GATHER` with `FIST` moves to `TREE`, with `NONE` reverts to `SNOW`;
every other pair leaves the phase unchanged (`setPhase` is not called). -/
def phaseStep (p : Phase) (g : Gesture) : Phase :=
  match p with
  | Phase.SNOW => if g = Gesture.OPEN then Phase.GATHER else p
  | Phase.GATHER =>
      if g = Gesture.FIST then Phase.TREE
      else if g = Gesture.NONE then Phase.SNOW
      else p
  | Phase.TREE => p

/-- Modelled from the spec: the transition table of section 4.2, written
exactly as the spec lists it, to be compared with `phaseStep` (which is
translated from the code). -/
def specPhaseStep : Phase → Gesture → Phase
  | Phase.SNOW, Gesture.OPEN => Phase.GATHER
  | Phase.GATHER, Gesture.FIST => Phase.TREE
  | Phase.GATHER, Gesture.NONE => Phase.SNOW
  | p, _ => p

/-! ## Gesture classifier adapter (HandTracker.tsx, `onResults`) -/

/-- One MediaPipe hand landmark; the classifier reads only the normalized
`x` and `y` coordinates. -/
structure Landmark where
  x : ℝ
  y : ℝ

/-- Euclidean distance in normalized image space between two landmarks,
as computed by `Math.sqrt(Math.pow(tip.x - wrist.x, 2) + Math.pow(tip.y - wrist.y, 2))`. -/
noncomputable def landmarkDist (a b : Landmark) : ℝ :=
  Real.sqrt ((a.x - b.x) ^ 2 + (a.y - b.y) ^ 2)

/-- Mean distance of the four fingertip landmarks (index 8, middle 12,
ring 16, pinky 20) to the wrist landmark (index 0): the `tips.forEach`
accumulation of `totalDist` followed by division by 4. -/
noncomputable def avgTipWristDist (lm : Fin 21 → Landmark) : ℝ :=
  (([8, 12, 16, 20] : List (Fin 21)).map fun i => landmarkDist (lm i) (lm 0)).sum / 4

/-- Gesture classification from HandTracker.tsx: `avgDist > 0.25` is `OPEN`,
otherwise `avgDist < 0.15` is `FIST`, otherwise the gesture stays `NONE`. -/
noncomputable def classifyGesture (lm : Fin 21 → Landmark) : Gesture :=
  if avgTipWristDist lm > 0.25 then Gesture.OPEN
  else if avgTipWristDist lm < 0.15 then Gesture.FIST
  else Gesture.NONE

/-- The shared mutable hand record, from `types.ts` (`HandData`). -/
structure HandData where
  rawX : ℝ
  rawY : ℝ
  gesture : Gesture
  isTracking : Bool

/-- The `hands.onResults` callback of HandTracker.tsx as a state update on
the shared `HandData` record. A detection result either carries one hand's
21 landmarks or no hand at all. With a hand, the cursor is set to the
X-mirrored index fingertip and the gesture reclassified; with no hand,
tracking is dropped, the gesture reset to `NONE` and the position fields
left as they were. -/
noncomputable def onResults (res : Option (Fin 21 → Landmark)) (h : HandData) : HandData :=
  match res with
  | some lm =>
      { rawX := 1 - (lm 8).x
        rawY := (lm 8).y
        gesture := classifyGesture lm
        isTracking := true }
  | none => { h with isTracking := false, gesture := Gesture.NONE }

/-! ## Audio frequency mapping (App.tsx, `hexToFreq`) -/

/-- Bool test for a hexadecimal digit as `parseInt` with radix 16 accepts it. -/
def isHexDigitChar (c : Char) : Bool :=
  c.isDigit || (decide ('a' ≤ c) && decide (c ≤ 'f')) || (decide ('A' ≤ c) && decide (c ≤ 'F'))

/-- Numeric value of a hexadecimal digit. -/
def hexDigitVal (c : Char) : ℕ :=
  if c.isDigit then c.toNat - '0'.toNat
  else if decide ('a' ≤ c) && decide (c ≤ 'f') then c.toNat - 'a'.toNat + 10
  else if decide ('A' ≤ c) && decide (c ≤ 'F') then c.toNat - 'A'.toNat + 10
  else 0

/-- Removal of the first `'#'` of a character list: JavaScript
`hex.replace('#', '')` with a string pattern replaces only the first
occurrence. -/
def removeFirstHash : List Char → List Char
  | [] => []
  | c :: cs => if c = '#' then cs else c :: removeFirstHash cs

/-- String wrapper for `removeFirstHash`. -/
def stripFirstHash (s : String) : String :=
  String.mk (removeFirstHash s.data)

/-- JavaScript `parseInt(s, 16)`: leading whitespace is skipped, an
optional `0x`/`0X` prefix accepted, then hexadecimal digits are read until
the first non-digit; `none` models the `NaN` result when no digit is read.
(The sign handling of `parseInt` is not modelled; no caller passes a
signed string.) -/
def parseIntHex (s : String) : Option ℕ :=
  let cs := s.data.dropWhile fun c => c.isWhitespace
  let cs := match cs with
    | '0' :: 'x' :: rest => rest
    | '0' :: 'X' :: rest => rest
    | l => l
  let ds := cs.takeWhile fun c => isHexDigitChar c
  if ds = [] then none
  else some (ds.foldl (fun acc c => acc * 16 + hexDigitVal c) 0)

/-- App.tsx `hexToFreq`: the hex string with its first `'#'` removed is
parsed base 16, and the result is the base frequency plus that value
modulo 300. `none` models the `NaN` that `parseInt` yields on a string
with no hex digits. -/
def hexToFreq (hex : String) (base : ℕ) : Option ℕ :=
  match parseIntHex (stripFirstHash hex) with
  | some val => some (base + val % 300)
  | none => none

/-! ## Theme service (geminiService.ts, `generateTheme`) -/

/-- Parsed theme-service response, from `types.ts` (`ThemeResponse`). -/
structure ThemeResponse where
  colors : List String
  greeting : String
  musicMood : Option String
  deriving DecidableEq, Repr

/-- Outcome of the external LLM call: the request throws, or returns a
response whose `text` field is absent or a string. -/
inductive ThemeCallOutcome where
  | throws
  | returnsText (text : Option String)

/-- The static fallback returned from the `catch` block of `generateTheme`. -/
def fallbackTheme : ThemeResponse :=
  { colors := ["#FF0000", "#00FF00", "#FFD700", "#FFFFFF", "#0000FF"]
    greeting := "Happy Holidays! (System Rebooting... Energy restored)"
    musicMood := some "Traditional" }

/-- Markdown-fence cleanup of `generateTheme`:
`text.replace(/^```json\s*/, "").replace(/```$/, "").trim()`. -/
def stripFences (t : String) : String :=
  let t1 := if t.startsWith "```json" then (t.drop 7).dropWhile Char.isWhitespace else t
  let t2 := if t1.endsWith "```" then t1.dropRight 3 else t1
  t2.trim

/-- geminiService.ts `generateTheme`. The external LLM call and the
external JSON parser are modelled as parameters: `outcome` is what the
`await ai.models.generateContent` call produced for the given prompt, and
`parse` models `JSON.parse` composed with the cast to `ThemeResponse`
(`none` models a parse exception). A thrown call, an absent `text` (the
explicit `throw new Error("No response from Gemini")`) and a parse failure
all land in the `catch` block, which returns the static fallback. -/
def generateTheme (prompt : String) (outcome : ThemeCallOutcome)
    (parse : String → Option ThemeResponse) : ThemeResponse :=
  match prompt, outcome with
  | _, ThemeCallOutcome.throws => fallbackTheme
  | _, ThemeCallOutcome.returnsText none => fallbackTheme
  | _, ThemeCallOutcome.returnsText (some t) =>
      match parse (stripFences t) with
      | some r => r
      | none => fallbackTheme

/-! ## Random source (Math.random) -/

/-- The `Math.random()` source: a stream of uniform draws in `[0,1)` and a
cursor; each call reads the value under the cursor and advances it. -/
structure Rand where
  stream : ℕ → ℚ
  idx : ℕ

/-- Value of the next `Math.random()` call. -/
def Rand.peek (r : Rand) : ℚ := r.stream r.idx

/-- The source after one `Math.random()` call. -/
def Rand.advance (r : Rand) : Rand := ⟨r.stream, r.idx + 1⟩

/-- A random source whose draws all lie in `[0,1)`, as `Math.random()`
guarantees. -/
def RandInRange (r : Rand) : Prop := ∀ n, 0 ≤ r.stream n ∧ r.stream n < 1

/-- The source that always draws the same value. -/
def constRand (c : ℚ) : Rand := ⟨fun _ => c, 0⟩

/-! ## Procedural tree generator (ChristmasTree.tsx, `useTreeData`) -/

/-- The fixed accent palette `HSR_PALETTE` of ChristmasTree.tsx. -/
def HSR_PALETTE : List String :=
  ["#00F0FF", "#7000FF", "#FF0066", "#FFD700", "#D0D0FF"]

/-- The initial theme palette of App.tsx (`state.colors` before any theme
request). -/
def defaultColors : List String :=
  ["#00F0FF", "#7000FF", "#FF0066", "#FFD700", "#FFFFFF"]

/-- Decoration kinds, from the `DecorationData` interface. -/
inductive DecoType where
  | photo
  | bell
  | spinning_star
  | twinkling_bauble
  | bauble
  deriving DecidableEq, Repr

/-- One decoration record. The source's string `id`
(`deco-${startX}-${startY}-${Math.random()}`) is modelled by the triple it
interpolates, and the photo `url` (which interpolates the id) by that same
triple. -/
structure DecorationData where
  type : DecoType
  position : ℝ × ℝ × ℝ
  rotation : Option (ℝ × ℝ × ℝ)
  color : Option String
  id : ℝ × ℝ × ℚ
  size : Option ℚ
  url : Option (ℝ × ℝ × ℚ)

/-- Accumulator of `useTreeData`: the flat `points` / `pointColors` arrays
(kept as lists of triples; the source stores the three components
consecutively in a flat array) and the `decorations` list, together with
the random source. -/
structure GenState where
  points : List (ℝ × ℝ × ℝ)
  pointColors : List (ℝ × ℝ × ℝ)
  decorations : List DecorationData
  rand : Rand

/-- Value of a two-digit hexadecimal pair. -/
def hexPairVal (a b : Char) : ℕ := hexDigitVal a * 16 + hexDigitVal b

/-- Three.js `new Color('#RRGGBB')` (or `'#RGB'`): channels scaled to
`[0,1]` by 255. Other strings (never produced by this program) give black. -/
def hexColorToRgb (s : String) : ℚ × ℚ × ℚ :=
  match s.data with
  | ['#', r1, r2, g1, g2, b1, b2] =>
      ((hexPairVal r1 r2 : ℚ) / 255, (hexPairVal g1 g2 : ℚ) / 255, (hexPairVal b1 b2 : ℚ) / 255)
  | ['#', r, g, b] =>
      ((hexDigitVal r * 17 : ℚ) / 255, (hexDigitVal g * 17 : ℚ) / 255, (hexDigitVal b * 17 : ℚ) / 255)
  | _ => (0, 0, 0)

/-- The `addPoint` helper of `useTreeData`: brightness is capped at 0.9,
dimmed a further 30 percent for literal white, and the scaled color pushed
beside the position. -/
noncomputable def addPoint (x y z : ℝ) (colorHex : String) (brightnessMod : ℝ)
    (st : GenState) : GenState :=
  let m0 := min brightnessMod 0.9
  let m := if colorHex.toLower = "#ffffff" ∨ colorHex.toLower = "#fff" then m0 * 0.7 else m0
  let c := hexColorToRgb colorHex
  { st with
    points := st.points ++ [(x, y, z)]
    pointColors := st.pointColors ++ [((c.1 : ℝ) * m, (c.2.1 : ℝ) * m, (c.2.2 : ℝ) * m)] }

/-- The foliage scatter loop (`for (let p = 0; p < density; p++)`): each
iteration draws three offsets and a palette index and pushes one point. -/
noncomputable def foliage (cx cy cz volumeSpread progress : ℝ)
    (palette : List String) : ℕ → GenState → GenState
  | 0, st => st
  | n + 1, st =>
    let r1 := st.rand.peek
    let q1 := st.rand.advance
    let r2 := q1.peek
    let q2 := q1.advance
    let r3 := q2.peek
    let q3 := q2.advance
    let r4 := q3.peek
    let q4 := q3.advance
    let px := cx + ((r1 : ℝ) - 0.5) * volumeSpread
    let py := cy + ((r2 : ℝ) - 0.5) * volumeSpread * 0.8
    let pz := cz + ((r3 : ℝ) - 0.5) * volumeSpread
    let col := palette.getD (Int.toNat ⌊r4 * (palette.length : ℚ)⌋) ""
    foliage cx cy cz volumeSpread progress palette n
      (addPoint px py pz col (0.4 + progress * 0.3) { st with rand := q4 })

/-- JavaScript `colors.filter(c => c !== '#FFFFFF' && c !== '#ffffff')`. -/
def richFilter (colors : List String) : List String :=
  colors.filter fun c => c != "#FFFFFF" && c != "#ffffff"

/-- The `richPalette` of the decoration block: the non-white supplied
colors, or the fixed accent `HSR_PALETTE[2]` when that filter is empty. -/
def richPalette (colors : List String) : List String :=
  if richFilter colors = [] then [HSR_PALETTE.getD 2 ""] else richFilter colors

/-- The `colorPool` of the decoration block: the rich palette extended
with the two fixed accents `HSR_PALETTE[2]` and `HSR_PALETTE[3]`. -/
def colorPool (colors : List String) : List String :=
  richPalette colors ++ [HSR_PALETTE.getD 2 "", HSR_PALETTE.getD 3 ""]

/-- The decoration block at the end of `generateBranch` (run only at
depth 0): one uniform draw selects the decoration kind against the fixed
bands, a second draw feeds the element id, and the kind-specific branches
draw a color index and a size. -/
noncomputable def placeDecoration (colors : List String) (startX startY dirAngle : ℝ)
    (dirX dirZ : ℝ) (res : (ℝ × ℝ × ℝ) × GenState) : GenState :=
  let st := res.2
  let rv := st.rand.peek
  let r1 := st.rand.advance
  let idr := r1.peek
  let r2 := r1.advance
  let id : ℝ × ℝ × ℚ := (startX, startY, idr)
  let tipX := res.1.1 + dirX * 0.2
  let tipY := res.1.2.1 - 0.2
  let tipZ := res.1.2.2 + dirZ * 0.2
  if 0.96 < rv then
    { st with
        rand := r2,
        decorations := st.decorations ++ [{
        type := DecoType.photo
        position := (tipX, tipY - 0.3, tipZ)
        rotation := some (0, -dirAngle + Real.pi / 2, 0)
        color := none
        id := id
        size := none
        url := some id }] }
  else if 0.8 < rv then
    let ci := r2.peek
    let r3 := r2.advance
    let col := HSR_PALETTE.getD (Int.toNat ⌊ci * (HSR_PALETTE.length : ℚ)⌋) ""
    let sz := r3.peek
    let r4 := r3.advance
    { st with
        rand := r4,
        decorations := st.decorations ++ [{
        type := DecoType.bell
        position := (tipX, tipY, tipZ)
        rotation := none
        color := some col
        id := id
        size := some (0.6 + sz * 0.4)
        url := none }] }
  else if 0.6 < rv then
    let ci := r2.peek
    let r3 := r2.advance
    let col := (colorPool colors).getD (Int.toNat ⌊ci * ((colorPool colors).length : ℚ)⌋) ""
    let sz := r3.peek
    let r4 := r3.advance
    { st with
        rand := r4,
        decorations := st.decorations ++ [{
        type := DecoType.spinning_star
        position := (tipX, tipY + 0.1, tipZ)
        rotation := none
        color := some col
        id := id
        size := some (0.5 + sz * 0.5)
        url := none }] }
  else if 0.4 < rv then
    let ci := r2.peek
    let r3 := r2.advance
    let col := (colorPool colors).getD (Int.toNat ⌊ci * ((colorPool colors).length : ℚ)⌋) ""
    let sz := r3.peek
    let r4 := r3.advance
    { st with
        rand := r4,
        decorations := st.decorations ++ [{
        type := DecoType.twinkling_bauble
        position := (tipX, tipY, tipZ)
        rotation := none
        color := some col
        id := id
        size := some (0.6 + sz * 0.3)
        url := none }] }
  else
    let ci := r2.peek
    let r3 := r2.advance
    let col := (colorPool colors).getD (Int.toNat ⌊ci * ((colorPool colors).length : ℚ)⌋) ""
    let sz := r3.peek
    let r4 := r3.advance
    { st with
        rand := r4,
        decorations := st.decorations ++ [{
        type := DecoType.bauble
        position := (tipX, tipY, tipZ)
        rotation := none
        color := some col
        id := id
        size := some (0.5 + sz * 0.8)
        url := none }] }

mutual

/-- The sub-branching block of `generateBranch`
(`if (depth === 0 && Math.random() < 0.45 && s > 1) { ... }`): at depth 0
one value is drawn (the short-circuit `&&` evaluates `Math.random()`
before `s > 1`, so the draw is consumed at every depth-0 segment), and
when it is below 0.45 and `s > 1` a spur sub-branch is generated from the
current turtle position at a chaotic angle, shortened length and a droop
that is upward 60 percent of the time. At other depths nothing happens. -/
noncomputable def spurStep (colors : List String) (dirAngle len progress : ℝ)
    (depth : ℕ) (s : ℕ) (cx1 cy1 cz1 : ℝ) (st1 : GenState) : GenState :=
  if _hd : depth = 0 then
    let v := st1.rand.peek
    let st2 : GenState := { st1 with rand := st1.rand.advance }
    if v < 0.45 ∧ 1 < s then
      let a := st2.rand.peek
      let ra := st2.rand.advance
      let spurAngle := dirAngle + ((a : ℝ) - 0.5) * 2.5
      let spurLength := len * 0.4 * (1 - progress)
      let b := ra.peek
      let rb := ra.advance
      let spurDroop : ℝ := if 0.4 < b then -0.2 else 0.3
      generateBranch colors cx1 cy1 cz1 spurAngle spurLength spurDroop (depth + 1)
        { st2 with rand := rb }
    else st2
  else st1
termination_by (1 - depth) * 1000 + 15
decreasing_by all_goals simp_wf <;> omega

/-- The segment loop of `generateBranch`
(`for (let s = 0; s < segments; s++)` with `segments = 15`): the loop is
recursed on the number `k` of remaining iterations while `s` carries the
source's counter (callers pass `k = 15`, `s = 0`). Each iteration advances
the turtle, scatters foliage of the per-depth density in the shrinking
volume spread, and runs the sub-branching block `spurStep`. -/
noncomputable def segLoop (colors : List String) (dirAngle len droop : ℝ) (depth : ℕ)
    (dirX dirZ : ℝ) : ℕ → ℕ → ℝ → ℝ → ℝ → ℝ → GenState → (ℝ × ℝ × ℝ) × GenState
  | 0, _, cx, cy, cz, _, st => ((cx, cy, cz), st)
  | k + 1, s, cx, cy, cz, dirY, st =>
    let progress : ℝ := (s : ℝ) / 15
    let stepSize := len / 15
    let dirY1 := dirY - droop * 0.12 * progress
    let cx1 := cx + dirX * stepSize
    let cy1 := cy + dirY1 * stepSize
    let cz1 := cz + dirZ * stepSize
    let volumeSpread := (1 - progress) * (if depth = 0 then (0.7 : ℝ) else 0.4)
    let density := if depth = 0 then 20 else 8
    let st1 := foliage cx1 cy1 cz1 volumeSpread progress (colors ++ HSR_PALETTE) density st
    segLoop colors dirAngle len droop depth dirX dirZ k (s + 1) cx1 cy1 cz1 dirY1
      (spurStep colors dirAngle len progress depth s cx1 cy1 cz1 st1)
termination_by k _s _cx _cy _cz _dirY _st => (1 - depth) * 1000 + k * 10 + 20
decreasing_by all_goals simp_wf <;> omega

/-- The recursive branch generator of `useTreeData`: a direction vector is
computed from the branch angle, the 15-segment walk is run from the start
position with initial upward perk 0.25, and at depth 0 one decoration is
placed at the final turtle position. -/
noncomputable def generateBranch (colors : List String)
    (startX startY startZ dirAngle len droop : ℝ) (depth : ℕ) (st : GenState) : GenState :=
  let dirX := Real.cos dirAngle
  let dirZ := Real.sin dirAngle
  let res := segLoop colors dirAngle len droop depth dirX dirZ 15 0 startX startY startZ 0.25 st
  if depth = 0 then placeDecoration colors startX startY dirAngle dirX dirZ res
  else res.2
termination_by (1 - depth) * 1000 + 500
decreasing_by all_goals simp_wf <;> omega

end

/-- The golden angle `Math.PI * (3 - Math.sqrt(5))` of the phyllotaxis
spiral. -/
noncomputable def goldenAngle : ℝ := Real.pi * (3 - Real.sqrt 5)

/-- The main branch loop of `useTreeData`
(`for (let i = 0; i < totalBranches; i++)` with `totalBranches = 140`),
recursed on the number `n` of remaining iterations while `i` carries the
source's counter (callers pass `n = 140`, `i = 0`): each iteration places
one depth-0 branch on the phyllotaxis spiral with random angle variance
and length. -/
@[irreducible] noncomputable def treeIter (colors : List String) (i : ℕ) (st : GenState) : GenState :=
  let t : ℝ := (i : ℝ) / 140
  let y := -3.5 + t * 11
  let r := 5.5 * (1 - t) + 0.3
  let theta := (i : ℝ) * goldenAngle
  let v1 := st.rand.peek
  let rd1 := st.rand.advance
  let variance := ((v1 : ℝ) - 0.5) * 1.2
  let angle := theta + variance
  let v2 := rd1.peek
  let rd2 := rd1.advance
  let len := r * (0.5 + (v2 : ℝ) * 0.9)
  let droop := 0.6 - t * 0.9
  generateBranch colors 0 y 0 angle len droop 0 { st with rand := rd2 }

/-- The loop itself, recursed on the number `n` of remaining iterations. -/
noncomputable def treeLoop (colors : List String) : ℕ → ℕ → GenState → GenState
  | 0, _, st => st
  | n + 1, i, st => treeLoop colors n (i + 1) (treeIter colors i st)
termination_by n _i _st => n

/-- The empty accumulator that `useTreeData` starts from. -/
def initialState (rand : Rand) : GenState :=
  { points := [], pointColors := [], decorations := [], rand := rand }

/-- The `useTreeData` generator: 140 main branches grown from an empty
accumulator. -/
noncomputable def useTreeData (colors : List String) (rand : Rand) : GenState :=
  treeLoop colors 140 0 (initialState rand)

/-- Modelled from the spec: the decoration probability bands of section
4.3 step 4, as a function of the single uniform draw. -/
def decoBand (v : ℚ) : DecoType :=
  if 0.96 < v then DecoType.photo
  else if 0.8 < v then DecoType.bell
  else if 0.6 < v then DecoType.spinning_star
  else if 0.4 < v then DecoType.twinkling_bauble
  else DecoType.bauble

/-- Number of loop iterations of a `k`-iteration segment walk starting at
counter `s` whose counter satisfies the spur condition `s > 1`: the
maximal number of spur spawns of one depth-0 branch walk. -/
def spurSlots : ℕ → ℕ → ℕ
  | 0, _ => 0
  | k + 1, s => (if 1 < s then 1 else 0) + spurSlots k (s + 1)

mutual

/-- Modelled from the spec (section 9, design note 4): the sub-branching
block with the recursion bounded by an explicit max-depth budget `fuel`; a
spur spawn is skipped when the budget is exhausted. -/
noncomputable def spurStepF (fuel : ℕ) (colors : List String) (dirAngle len progress : ℝ)
    (depth : ℕ) (s : ℕ) (cx1 cy1 cz1 : ℝ) (st1 : GenState) : GenState :=
  if _hd : depth = 0 then
    let v := st1.rand.peek
    let st2 : GenState := { st1 with rand := st1.rand.advance }
    if v < 0.45 ∧ 1 < s then
      let a := st2.rand.peek
      let ra := st2.rand.advance
      let spurAngle := dirAngle + ((a : ℝ) - 0.5) * 2.5
      let spurLength := len * 0.4 * (1 - progress)
      let b := ra.peek
      let rb := ra.advance
      let spurDroop : ℝ := if 0.4 < b then -0.2 else 0.3
      if _hf : fuel = 0 then { st2 with rand := rb }
      else generateBranchF (fuel - 1) colors cx1 cy1 cz1 spurAngle spurLength spurDroop
        (depth + 1) { st2 with rand := rb }
    else st2
  else st1
termination_by fuel * 1000 + 15
decreasing_by all_goals simp_wf <;> omega

/-- Segment loop of the budget-bounded generator; see `spurStepF`. -/
noncomputable def segLoopF (fuel : ℕ) (colors : List String) (dirAngle len droop : ℝ)
    (depth : ℕ) (dirX dirZ : ℝ) :
    ℕ → ℕ → ℝ → ℝ → ℝ → ℝ → GenState → (ℝ × ℝ × ℝ) × GenState
  | 0, _, cx, cy, cz, _, st => ((cx, cy, cz), st)
  | k + 1, s, cx, cy, cz, dirY, st =>
    let progress : ℝ := (s : ℝ) / 15
    let stepSize := len / 15
    let dirY1 := dirY - droop * 0.12 * progress
    let cx1 := cx + dirX * stepSize
    let cy1 := cy + dirY1 * stepSize
    let cz1 := cz + dirZ * stepSize
    let volumeSpread := (1 - progress) * (if depth = 0 then (0.7 : ℝ) else 0.4)
    let density := if depth = 0 then 20 else 8
    let st1 := foliage cx1 cy1 cz1 volumeSpread progress (colors ++ HSR_PALETTE) density st
    segLoopF fuel colors dirAngle len droop depth dirX dirZ k (s + 1) cx1 cy1 cz1 dirY1
      (spurStepF fuel colors dirAngle len progress depth s cx1 cy1 cz1 st1)
termination_by k _s _cx _cy _cz _dirY _st => fuel * 1000 + k * 10 + 20
decreasing_by all_goals simp_wf <;> omega

/-- Branch generator with an explicit recursion budget: comparing
`generateBranch` with this bounded generator shows the source's implicit
`depth === 0` gating caps the recursion at one level of nesting. -/
noncomputable def generateBranchF (fuel : ℕ) (colors : List String)
    (startX startY startZ dirAngle len droop : ℝ) (depth : ℕ) (st : GenState) : GenState :=
  let dirX := Real.cos dirAngle
  let dirZ := Real.sin dirAngle
  let res := segLoopF fuel colors dirAngle len droop depth dirX dirZ 15 0 startX startY startZ
    0.25 st
  if depth = 0 then placeDecoration colors startX startY dirAngle dirX dirZ res
  else res.2
termination_by fuel * 1000 + 500
decreasing_by all_goals simp_wf <;> omega

end

/-! ## Basic lemmas about the accumulator operations -/

theorem Rand.advance_stream (r : Rand) : r.advance.stream = r.stream := rfl

theorem addPoint_decorations (x y z : ℝ) (c : String) (m : ℝ) (st : GenState) :
    (addPoint x y z c m st).decorations = st.decorations := rfl

theorem addPoint_rand (x y z : ℝ) (c : String) (m : ℝ) (st : GenState) :
    (addPoint x y z c m st).rand = st.rand := rfl

theorem addPoint_points_len (x y z : ℝ) (c : String) (m : ℝ) (st : GenState) :
    (addPoint x y z c m st).points.length = st.points.length + 1 := by
  simp [addPoint]

theorem foliage_decorations (cx cy cz vs pr : ℝ) (pal : List String) :
    ∀ n st, (foliage cx cy cz vs pr pal n st).decorations = st.decorations := by
  intro n
  induction n with
  | zero => intro st; rfl
  | succ n ih =>
      intro st
      rw [foliage, ih]
      rfl

theorem foliage_rand_stream (cx cy cz vs pr : ℝ) (pal : List String) :
    ∀ n st, (foliage cx cy cz vs pr pal n st).rand.stream = st.rand.stream := by
  intro n
  induction n with
  | zero => intro st; rfl
  | succ n ih =>
      intro st
      rw [foliage, ih]
      rfl

theorem foliage_points_len (cx cy cz vs pr : ℝ) (pal : List String) :
    ∀ n st, (foliage cx cy cz vs pr pal n st).points.length = st.points.length + n := by
  intro n
  induction n with
  | zero => intro st; rfl
  | succ n ih =>
      intro st
      rw [foliage, ih, addPoint_points_len]
      dsimp only
      omega

theorem placeDecoration_points (colors : List String) (sx sy ang dX dZ : ℝ)
    (res : (ℝ × ℝ × ℝ) × GenState) :
    (placeDecoration colors sx sy ang dX dZ res).points = res.2.points := by
  simp only [placeDecoration]
  split_ifs <;> rfl

theorem placeDecoration_rand_stream (colors : List String) (sx sy ang dX dZ : ℝ)
    (res : (ℝ × ℝ × ℝ) × GenState) :
    (placeDecoration colors sx sy ang dX dZ res).rand.stream = res.2.rand.stream := by
  simp only [placeDecoration]
  split_ifs <;> rfl

theorem placeDecoration_deco_len (colors : List String) (sx sy ang dX dZ : ℝ)
    (res : (ℝ × ℝ × ℝ) × GenState) :
    (placeDecoration colors sx sy ang dX dZ res).decorations.length
      = res.2.decorations.length + 1 := by
  simp only [placeDecoration]
  split_ifs <;> simp

/-! ## Claims about the phase machine, classifier, audio and theme service -/

/-- C1: for every sequence of gesture samples fed to the per-frame phase
evaluation, once the phase reaches `TREE` it never transitions back to
`SNOW` or `GATHER`: a single step from `TREE` stays `TREE`, and so does
any fold of further gesture samples. -/
theorem phase_TREE_terminal :
    (∀ g, phaseStep Phase.TREE g = Phase.TREE)
    ∧ ∀ gs : List Gesture, gs.foldl phaseStep Phase.TREE = Phase.TREE := by
  refine ⟨fun g => rfl, fun gs => ?_⟩
  induction gs with
  | nil => rfl
  | cons g gs ih => simpa [phaseStep] using ih

/-- C2: the per-frame phase step translated from `InteractionHandler`
coincides, on every (phase, gesture) pair, with the spec's transition
table `specPhaseStep` (SNOW+OPEN to GATHER, GATHER+FIST to TREE,
GATHER+NONE back to SNOW in that same frame, all other pairs unchanged). -/
theorem phaseStep_matches_spec : ∀ p g, phaseStep p g = specPhaseStep p g := by
  intro p g
  cases p <;> cases g <;> rfl

/-- C3: the classifier computes the mean Euclidean distance of the four
fingertip landmarks (8, 12, 16, 20) to the wrist landmark (0) and returns
`OPEN` exactly when that mean exceeds 0.25, `FIST` exactly when it is
below 0.15, and `NONE` otherwise. -/
theorem classifyGesture_thresholds : ∀ lm : Fin 21 → Landmark,
    avgTipWristDist lm = (landmarkDist (lm 8) (lm 0) + landmarkDist (lm 12) (lm 0)
        + landmarkDist (lm 16) (lm 0) + landmarkDist (lm 20) (lm 0)) / 4
    ∧ (classifyGesture lm = Gesture.OPEN ↔ 0.25 < avgTipWristDist lm)
    ∧ (classifyGesture lm = Gesture.FIST ↔ avgTipWristDist lm < 0.15)
    ∧ (classifyGesture lm = Gesture.NONE ↔
        0.15 ≤ avgTipWristDist lm ∧ avgTipWristDist lm ≤ 0.25) := by
  intro lm
  refine ⟨by simp [avgTipWristDist]; ring, ?_, ?_, ?_⟩ <;>
    unfold classifyGesture <;> split_ifs with h1 h2 <;> simp_all <;> linarith

/-- C8: on a thrown theme-service call, an absent response text, or a
malformed (unparseable) response, `generateTheme` returns exactly the
documented fallback: the five fallback colors and the rebooting greeting. -/
theorem generateTheme_fallback :
    (∀ prompt parse, generateTheme prompt ThemeCallOutcome.throws parse = fallbackTheme)
    ∧ (∀ prompt parse,
        generateTheme prompt (ThemeCallOutcome.returnsText none) parse = fallbackTheme)
    ∧ (∀ prompt parse t, parse (stripFences t) = none →
        generateTheme prompt (ThemeCallOutcome.returnsText (some t)) parse = fallbackTheme)
    ∧ fallbackTheme.colors = ["#FF0000", "#00FF00", "#FFD700", "#FFFFFF", "#0000FF"]
    ∧ fallbackTheme.greeting = "Happy Holidays! (System Rebooting... Energy restored)" := by
  refine ⟨fun _ _ => rfl, fun _ _ => rfl, fun p f t h => ?_, rfl, rfl⟩
  simp [generateTheme, h]

/-- C9: `hexToFreq` is a pure function of its two inputs, equal to the base
plus the parsed hex value modulo 300 whenever the string parses (`none`
models the `NaN` of an unparseable string); in particular
`hexToFreq '#00F0FF' 150` is the fixed value `some 345`
(`0x00F0FF = 61695`, `61695 % 300 = 195`, `150 + 195 = 345`). -/
theorem hexToFreq_pure :
    (∀ hex base,
        hexToFreq hex base = (parseIntHex (stripFirstHash hex)).map fun v => base + v % 300)
    ∧ hexToFreq "#00F0FF" 150 = some 345 := by
  constructor
  · intro hex base
    unfold hexToFreq
    cases parseIntHex (stripFirstHash hex) <;> rfl
  · decide

/-- C10: on a detection result with no hand, the adapter clears
`isTracking`, resets the gesture to `NONE`, and leaves both position
fields untouched, so the last known position persists. -/
theorem onResults_no_hand : ∀ h : HandData,
    (onResults none h).rawX = h.rawX ∧ (onResults none h).rawY = h.rawY
    ∧ (onResults none h).gesture = Gesture.NONE ∧ (onResults none h).isTracking = false :=
  fun _ => ⟨rfl, rfl, rfl, rfl⟩

/-! ## Effect lemmas for the branch generator -/

theorem peek_of_const {r : Rand} {c : ℚ} (h : r.stream = fun _ => c) : r.peek = c := by
  rw [Rand.peek, h]

theorem peek_advance_advance_of_const {r : Rand} {c : ℚ} (h : r.stream = fun _ => c) :
    r.advance.advance.peek = c := by
  simp [Rand.peek, Rand.advance, h]

theorem spurStep_succ (colors : List String) (dA l pr : ℝ) (d : ℕ) (s : ℕ)
    (cx cy cz : ℝ) (st1 : GenState) :
    spurStep colors dA l pr (d + 1) s cx cy cz st1 = st1 := by
  rw [spurStep, dif_neg (by omega : ¬(d + 1 = 0))]

theorem segLoop_succ_effects (colors : List String) (dA l dr : ℝ) (d : ℕ) (dX dZ : ℝ) :
    ∀ k s cx cy cz dY st,
      ((segLoop colors dA l dr (d + 1) dX dZ k s cx cy cz dY st).2.decorations
          = st.decorations)
      ∧ ((segLoop colors dA l dr (d + 1) dX dZ k s cx cy cz dY st).2.rand.stream
          = st.rand.stream)
      ∧ ((segLoop colors dA l dr (d + 1) dX dZ k s cx cy cz dY st).2.points.length
          = st.points.length + k * 8) := by
  intro k
  induction k with
  | zero =>
      intro s cx cy cz dY st
      simp [segLoop]
  | succ k ih =>
      intro s cx cy cz dY st
      have hne : ¬(d + 1 = 0) := by omega
      simp only [segLoop, if_neg hne, spurStep_succ]
      refine ⟨?_, ?_, ?_⟩
      · rw [(ih _ _ _ _ _ _).1, foliage_decorations]
      · rw [(ih _ _ _ _ _ _).2.1, foliage_rand_stream]
      · rw [(ih _ _ _ _ _ _).2.2, foliage_points_len]
        omega

theorem generateBranch_succ_deco (colors : List String) (sx sy sz a l dr : ℝ) (d : ℕ)
    (st : GenState) :
    (generateBranch colors sx sy sz a l dr (d + 1) st).decorations = st.decorations := by
  have hne : ¬(d + 1 = 0) := by omega
  simp only [generateBranch, if_neg hne]
  exact (segLoop_succ_effects colors a l dr d (Real.cos a) (Real.sin a) 15 0 sx sy sz 0.25 st).1

theorem generateBranch_succ_stream (colors : List String) (sx sy sz a l dr : ℝ) (d : ℕ)
    (st : GenState) :
    (generateBranch colors sx sy sz a l dr (d + 1) st).rand.stream = st.rand.stream := by
  have hne : ¬(d + 1 = 0) := by omega
  simp only [generateBranch, if_neg hne]
  exact (segLoop_succ_effects colors a l dr d (Real.cos a) (Real.sin a) 15 0 sx sy sz 0.25 st).2.1

theorem generateBranch_succ_points (colors : List String) (sx sy sz a l dr : ℝ) (d : ℕ)
    (st : GenState) :
    (generateBranch colors sx sy sz a l dr (d + 1) st).points.length
      = st.points.length + 120 := by
  have hne : ¬(d + 1 = 0) := by omega
  simp only [generateBranch, if_neg hne]
  rw [(segLoop_succ_effects colors a l dr d (Real.cos a) (Real.sin a) 15 0 sx sy sz 0.25 st).2.2]

theorem spurStep_zero_deco (colors : List String) (dA l pr : ℝ) (s : ℕ)
    (cx cy cz : ℝ) (st1 : GenState) :
    (spurStep colors dA l pr 0 s cx cy cz st1).decorations = st1.decorations := by
  rw [spurStep, dif_pos rfl]
  dsimp only
  by_cases h : st1.rand.peek < 0.45 ∧ 1 < s
  · rw [if_pos h]
    exact generateBranch_succ_deco _ _ _ _ _ _ _ 0 _
  · rw [if_neg h]

theorem spurStep_zero_stream (colors : List String) (dA l pr : ℝ) (s : ℕ)
    (cx cy cz : ℝ) (st1 : GenState) :
    (spurStep colors dA l pr 0 s cx cy cz st1).rand.stream = st1.rand.stream := by
  rw [spurStep, dif_pos rfl]
  dsimp only
  by_cases h : st1.rand.peek < 0.45 ∧ 1 < s
  · rw [if_pos h, generateBranch_succ_stream _ _ _ _ _ _ _ 0 _]
    rfl
  · rw [if_neg h]
    rfl

theorem spurStep_zero_points (colors : List String) (dA l pr : ℝ) (s : ℕ)
    (cx cy cz : ℝ) (st1 : GenState) :
    (spurStep colors dA l pr 0 s cx cy cz st1).points.length
      = st1.points.length + (if st1.rand.peek < 0.45 ∧ 1 < s then 120 else 0) := by
  rw [spurStep, dif_pos rfl]
  dsimp only
  by_cases h : st1.rand.peek < 0.45 ∧ 1 < s
  · rw [if_pos h, if_pos h, generateBranch_succ_points _ _ _ _ _ _ _ 0 _]
  · rw [if_neg h, if_neg h]
    simp

theorem segLoop_zero_effects (colors : List String) (dA l dr dX dZ : ℝ) :
    ∀ k s cx cy cz dY st,
      ((segLoop colors dA l dr 0 dX dZ k s cx cy cz dY st).2.decorations = st.decorations)
      ∧ ((segLoop colors dA l dr 0 dX dZ k s cx cy cz dY st).2.rand.stream = st.rand.stream)
      ∧ ((segLoop colors dA l dr 0 dX dZ k s cx cy cz dY st).2.points.length
          ≤ st.points.length + k * 20 + spurSlots k s * 120) := by
  intro k
  induction k with
  | zero =>
      intro s cx cy cz dY st
      simp [segLoop, spurSlots]
  | succ k ih =>
      intro s cx cy cz dY st
      simp only [segLoop, if_pos rfl]
      refine ⟨?_, ?_, ?_⟩
      · rw [(ih _ _ _ _ _ _).1, spurStep_zero_deco, foliage_decorations]
      · rw [(ih _ _ _ _ _ _).2.1, spurStep_zero_stream, foliage_rand_stream]
      · refine le_trans (ih _ _ _ _ _ _).2.2 ?_
        rw [spurStep_zero_points, foliage_points_len, spurSlots]
        split_ifs with h1 h2 <;> first | omega | exact absurd h1.2 h2

/-! ## Decoration color and placement lemmas -/

theorem getD_rand_mem (l : List String) (q : ℚ) (h0 : 0 ≤ q) (h1 : q < 1) (hl : l ≠ []) :
    l.getD (Int.toNat ⌊q * (l.length : ℚ)⌋) "" ∈ l := by
  have hlen : (0 : ℚ) < (l.length : ℚ) := by
    exact_mod_cast List.length_pos.mpr hl
  have hfl : ⌊q * (l.length : ℚ)⌋ < (l.length : ℤ) := by
    rw [Int.floor_lt]
    push_cast
    nlinarith
  have hge : (0 : ℤ) ≤ ⌊q * (l.length : ℚ)⌋ := Int.floor_nonneg.mpr (by positivity)
  have hidx : Int.toNat ⌊q * (l.length : ℚ)⌋ < l.length := by omega
  rw [List.getD_eq_getElem l _ hidx]
  exact List.getElem_mem hidx

theorem HSR_not_white : ∀ c ∈ HSR_PALETTE, c ≠ "#FFFFFF" ∧ c ≠ "#ffffff" := by decide

theorem HSR_ne_nil : HSR_PALETTE ≠ [] := by decide

theorem colorPool_ne_nil (colors : List String) : colorPool colors ≠ [] := by
  simp [colorPool]

theorem mem_richFilter (colors : List String) (c : String) (hc : c ∈ richFilter colors) :
    c ∈ colors ∧ c ≠ "#FFFFFF" ∧ c ≠ "#ffffff" := by
  rw [richFilter] at hc
  have h := List.mem_filter.mp hc
  have h2 : c ≠ "#FFFFFF" ∧ c ≠ "#ffffff" := by simpa using h.2
  exact ⟨h.1, h2.1, h2.2⟩

theorem mem_colorPool (colors : List String) (c : String) (hc : c ∈ colorPool colors) :
    (c ∈ colors ∨ c ∈ HSR_PALETTE) ∧ c ≠ "#FFFFFF" ∧ c ≠ "#ffffff" := by
  rw [colorPool, richPalette] at hc
  rcases List.mem_append.mp hc with h | h
  · split_ifs at h with he
    · have : c = HSR_PALETTE.getD 2 "" := by simpa using h
      subst this
      exact ⟨Or.inr (by decide), by decide, by decide⟩
    · have h2 := mem_richFilter colors c h
      exact ⟨Or.inl h2.1, h2.2⟩
  · simp only [List.mem_cons, List.not_mem_nil, or_false] at h
    rcases h with rfl | rfl
    · exact ⟨Or.inr (by decide), by decide, by decide⟩
    · exact ⟨Or.inr (by decide), by decide, by decide⟩

theorem mem_colorPool_empty (colors : List String) (he : richFilter colors = [])
    (c : String) (hc : c ∈ colorPool colors) : c ∈ HSR_PALETTE := by
  rw [colorPool, richPalette, if_pos he] at hc
  simp only [List.mem_append, List.mem_cons, List.not_mem_nil, or_false,
    List.mem_singleton] at hc
  rcases hc with rfl | rfl | rfl <;> decide

theorem placeDecoration_spec (colors : List String) (sx sy ang dX dZ : ℝ)
    (res : (ℝ × ℝ × ℝ) × GenState) (hr : RandInRange res.2.rand) :
    ∃ d : DecorationData,
      (placeDecoration colors sx sy ang dX dZ res).decorations = res.2.decorations ++ [d]
      ∧ d.type = decoBand res.2.rand.peek
      ∧ (∀ c, d.color = some c →
          (c ∈ colors ∨ c ∈ HSR_PALETTE) ∧ c ≠ "#FFFFFF" ∧ c ≠ "#ffffff")
      ∧ (richFilter colors = [] → ∀ c, d.color = some c → c ∈ HSR_PALETTE)
      ∧ (d.type = DecoType.bell → ∀ c, d.color = some c → c ∈ HSR_PALETTE)
      ∧ (d.type ≠ DecoType.bell → ∀ c, d.color = some c → c ∈ colorPool colors)
      ∧ d.position.1 = res.1.1 + dX * 0.2
      ∧ d.position.2.2 = res.1.2.2 + dZ * 0.2 := by
  have hci0 := hr (res.2.rand.idx + 2)
  have hpool : (colorPool colors).getD
      (Int.toNat ⌊res.2.rand.advance.advance.peek * ((colorPool colors).length : ℚ)⌋) ""
      ∈ colorPool colors :=
    getD_rand_mem _ _ hci0.1 hci0.2 (colorPool_ne_nil colors)
  have hHSR : HSR_PALETTE.getD
      (Int.toNat ⌊res.2.rand.advance.advance.peek * ((HSR_PALETTE.length : ℕ) : ℚ)⌋) ""
      ∈ HSR_PALETTE :=
    getD_rand_mem _ _ hci0.1 hci0.2 HSR_ne_nil
  simp only [placeDecoration]
  split_ifs with h1 h2 h3 h4
  · exact ⟨_, rfl, by simp [decoBand, h1], fun c hc => Option.noConfusion hc,
      fun _ c hc => Option.noConfusion hc, fun _ c hc => Option.noConfusion hc,
      fun _ c hc => Option.noConfusion hc, rfl, rfl⟩
  · refine ⟨_, rfl, by simp [decoBand, h1, h2], ?_, ?_, ?_, ?_, rfl, rfl⟩
    · intro c hc
      rw [Option.some_inj] at hc
      subst hc
      refine ⟨Or.inr hHSR, HSR_not_white _ hHSR⟩
    · intro _ c hc
      rw [Option.some_inj] at hc
      subst hc
      exact hHSR
    · intro _ c hc
      rw [Option.some_inj] at hc
      subst hc
      exact hHSR
    · intro hne
      exact absurd rfl hne
  · refine ⟨_, rfl, by simp [decoBand, h1, h2, h3], ?_, ?_, ?_, ?_, rfl, rfl⟩
    · intro c hc
      rw [Option.some_inj] at hc
      subst hc
      exact mem_colorPool colors _ hpool
    · intro he c hc
      rw [Option.some_inj] at hc
      subst hc
      exact mem_colorPool_empty colors he _ hpool
    · intro hb
      simp at hb
    · intro _ c hc
      rw [Option.some_inj] at hc
      subst hc
      exact hpool
  · refine ⟨_, rfl, by simp [decoBand, h1, h2, h3, h4], ?_, ?_, ?_, ?_, rfl, rfl⟩
    · intro c hc
      rw [Option.some_inj] at hc
      subst hc
      exact mem_colorPool colors _ hpool
    · intro he c hc
      rw [Option.some_inj] at hc
      subst hc
      exact mem_colorPool_empty colors he _ hpool
    · intro hb
      simp at hb
    · intro _ c hc
      rw [Option.some_inj] at hc
      subst hc
      exact hpool
  · refine ⟨_, rfl, by simp [decoBand, h1, h2, h3, h4], ?_, ?_, ?_, ?_, rfl, rfl⟩
    · intro c hc
      rw [Option.some_inj] at hc
      subst hc
      exact mem_colorPool colors _ hpool
    · intro he c hc
      rw [Option.some_inj] at hc
      subst hc
      exact mem_colorPool_empty colors he _ hpool
    · intro hb
      simp at hb
    · intro _ c hc
      rw [Option.some_inj] at hc
      subst hc
      exact hpool

/-! ## Depth-0 branch and whole-tree lemmas -/

theorem randInRange_of_stream_eq {r r' : Rand} (h : r'.stream = r.stream)
    (hr : RandInRange r) : RandInRange r' := by
  intro n
  rw [h]
  exact hr n

theorem generateBranch_zero_deco_len (colors : List String) (sx sy sz a l dr : ℝ)
    (st : GenState) :
    (generateBranch colors sx sy sz a l dr 0 st).decorations.length
      = st.decorations.length + 1 := by
  rw [generateBranch, if_pos rfl]
  rw [placeDecoration_deco_len,
    (segLoop_zero_effects colors a l dr (Real.cos a) (Real.sin a) 15 0 sx sy sz 0.25 st).1]

theorem generateBranch_zero_stream (colors : List String) (sx sy sz a l dr : ℝ)
    (st : GenState) :
    (generateBranch colors sx sy sz a l dr 0 st).rand.stream = st.rand.stream := by
  rw [generateBranch, if_pos rfl]
  rw [placeDecoration_rand_stream,
    (segLoop_zero_effects colors a l dr (Real.cos a) (Real.sin a) 15 0 sx sy sz 0.25 st).2.1]

theorem generateBranch_zero_points_le (colors : List String) (sx sy sz a l dr : ℝ)
    (st : GenState) :
    (generateBranch colors sx sy sz a l dr 0 st).points.length
      ≤ st.points.length + 1860 := by
  rw [generateBranch, if_pos rfl]
  rw [placeDecoration_points]
  refine le_trans
    (segLoop_zero_effects colors a l dr (Real.cos a) (Real.sin a) 15 0 sx sy sz 0.25 st).2.2 ?_
  have : spurSlots 15 0 = 13 := by decide
  omega

theorem treeIter_deco_len (colors : List String) (i : ℕ) (st : GenState) :
    (treeIter colors i st).decorations.length = st.decorations.length + 1 := by
  rw [treeIter, generateBranch_zero_deco_len]

theorem treeIter_stream (colors : List String) (i : ℕ) (st : GenState) :
    (treeIter colors i st).rand.stream = st.rand.stream := by
  rw [treeIter, generateBranch_zero_stream]
  rfl

theorem treeIter_points_le (colors : List String) (i : ℕ) (st : GenState) :
    (treeIter colors i st).points.length ≤ st.points.length + 1860 := by
  rw [treeIter]
  exact generateBranch_zero_points_le _ _ _ _ _ _ _ _

theorem treeLoop_effects (colors : List String) :
    ∀ n i st,
      ((treeLoop colors n i st).decorations.length = st.decorations.length + n)
      ∧ ((treeLoop colors n i st).rand.stream = st.rand.stream)
      ∧ ((treeLoop colors n i st).points.length ≤ st.points.length + n * 1860) := by
  intro n
  induction n with
  | zero => intro i st; simp [treeLoop]
  | succ n ih =>
      intro i st
      simp only [treeLoop]
      refine ⟨?_, ?_, ?_⟩
      · rw [(ih _ _).1, treeIter_deco_len]
        omega
      · rw [(ih _ _).2.1, treeIter_stream]
      · refine le_trans (ih _ _).2.2 ?_
        refine le_trans (Nat.add_le_add_right (treeIter_points_le _ _ _) _) ?_
        omega

theorem useTreeData_deco_len (colors : List String) (r : Rand) :
    (useTreeData colors r).decorations.length = 140 := by
  rw [useTreeData]
  rw [(treeLoop_effects colors 140 0 _).1]
  rfl

theorem useTreeData_points_le (colors : List String) (r : Rand) :
    (useTreeData colors r).points.length ≤ 260400 := by
  rw [useTreeData]
  have h := (treeLoop_effects colors 140 0 (initialState r)).2.2
  simp only [initialState, List.length_nil, Nat.zero_add] at h
  exact le_trans h (by norm_num)

/-! ## Exact point counts under a constant random source -/

theorem segLoop_zero_points_const (colors : List String) (dA l dr dX dZ : ℝ) (c : ℚ) :
    ∀ k s cx cy cz dY st, st.rand.stream = (fun _ => c) →
      (segLoop colors dA l dr 0 dX dZ k s cx cy cz dY st).2.points.length
        = st.points.length + k * 20 + (if c < 0.45 then spurSlots k s else 0) * 120 := by
  intro k
  induction k with
  | zero =>
      intro s cx cy cz dY st hst
      simp [segLoop, spurSlots]
  | succ k ih =>
      intro s cx cy cz dY st hst
      simp only [segLoop, if_pos rfl]
      refine Eq.trans (ih _ _ _ _ _ _ ?_) ?_
      · rw [spurStep_zero_stream, foliage_rand_stream]
        exact hst
      · rw [spurStep_zero_points, foliage_points_len]
        simp only [Rand.peek, foliage_rand_stream, hst]
        rw [spurSlots]
        by_cases hc : c < 0.45 <;> by_cases h1 : 1 < s <;>
          simp only [hc, h1, and_true, and_false, if_true, if_false, true_and,
            false_and, ite_true, ite_false] <;> omega

theorem generateBranch_zero_points_const (colors : List String) (sx sy sz a l dr : ℝ)
    (c : ℚ) (st : GenState) (hst : st.rand.stream = (fun _ => c)) :
    (generateBranch colors sx sy sz a l dr 0 st).points.length
      = st.points.length + (300 + (if c < 0.45 then 13 else 0) * 120) := by
  rw [generateBranch, if_pos rfl, placeDecoration_points]
  rw [segLoop_zero_points_const colors a l dr (Real.cos a) (Real.sin a) c 15 0 sx sy sz
    0.25 st hst]
  have h13 : spurSlots 15 0 = 13 := by decide
  by_cases hc : c < 0.45 <;> simp [hc, h13]

theorem treeIter_points_const (colors : List String) (c : ℚ) (i : ℕ) (st : GenState)
    (hst : st.rand.stream = (fun _ => c)) :
    (treeIter colors i st).points.length
      = st.points.length + (300 + (if c < 0.45 then 13 else 0) * 120) := by
  rw [treeIter]
  refine Eq.trans (generateBranch_zero_points_const _ _ _ _ _ _ _ c _ ?_) ?_
  · exact hst
  · rfl

theorem treeLoop_points_const (colors : List String) (c : ℚ) :
    ∀ n i st, st.rand.stream = (fun _ => c) →
      (treeLoop colors n i st).points.length
        = st.points.length + n * (300 + (if c < 0.45 then 13 else 0) * 120) := by
  intro n
  induction n with
  | zero => intro i st hst; simp [treeLoop]
  | succ n ih =>
      intro i st hst
      simp only [treeLoop]
      refine Eq.trans (ih _ _ ?_) ?_
      · rw [treeIter_stream]
        exact hst
      · rw [treeIter_points_const colors c i st hst]
        ring

theorem useTreeData_points_const (colors : List String) (c : ℚ) :
    (useTreeData colors (constRand c)).points.length
      = 140 * (300 + (if c < 0.45 then 13 else 0) * 120) := by
  rw [useTreeData]
  have h := treeLoop_points_const colors c 140 0 (initialState (constRand c)) rfl
  simpa [initialState] using h

/-! ## One decoration per main branch (C4 support) -/

theorem generateBranch_zero_deco_spec (colors : List String) (sx sy sz a l dr : ℝ)
    (st : GenState) (hr : RandInRange st.rand) :
    ∃ d : DecorationData,
      (generateBranch colors sx sy sz a l dr 0 st).decorations = st.decorations ++ [d]
      ∧ d.type = decoBand
          ((segLoop colors a l dr 0 (Real.cos a) (Real.sin a) 15 0 sx sy sz
            0.25 st).2.rand.peek)
      ∧ (∀ c, d.color = some c →
          (c ∈ colors ∨ c ∈ HSR_PALETTE) ∧ c ≠ "#FFFFFF" ∧ c ≠ "#ffffff")
      ∧ (richFilter colors = [] → ∀ c, d.color = some c → c ∈ HSR_PALETTE)
      ∧ (d.type = DecoType.bell → ∀ c, d.color = some c → c ∈ HSR_PALETTE)
      ∧ (d.type ≠ DecoType.bell → ∀ c, d.color = some c → c ∈ colorPool colors)
      ∧ d.position.1 = (segLoop colors a l dr 0 (Real.cos a) (Real.sin a) 15 0 sx sy sz
            0.25 st).1.1 + Real.cos a * 0.2
      ∧ d.position.2.2 = (segLoop colors a l dr 0 (Real.cos a) (Real.sin a) 15 0 sx sy sz
            0.25 st).1.2.2 + Real.sin a * 0.2 := by
  rw [generateBranch, if_pos rfl]
  have hseg := segLoop_zero_effects colors a l dr (Real.cos a) (Real.sin a) 15 0 sx sy sz
    0.25 st
  have hr2 : RandInRange
      (segLoop colors a l dr 0 (Real.cos a) (Real.sin a) 15 0 sx sy sz 0.25 st).2.rand :=
    randInRange_of_stream_eq hseg.2.1 hr
  obtain ⟨d, h1, h2, h3, h4, hb, hnb, h5, h6⟩ :=
    placeDecoration_spec colors sx sy a (Real.cos a) (Real.sin a)
      (segLoop colors a l dr 0 (Real.cos a) (Real.sin a) 15 0 sx sy sz 0.25 st) hr2
  refine ⟨d, ?_, h2, h3, h4, hb, hnb, h5, h6⟩
  rw [h1, hseg.1]

theorem generateBranch_zero_colors (colors : List String) (he : richFilter colors = [])
    (sx sy sz a l dr : ℝ) (st : GenState) (hr : RandInRange st.rand)
    (hinv : ∀ d ∈ st.decorations, ∀ c, d.color = some c → c ∈ HSR_PALETTE) :
    ∀ d ∈ (generateBranch colors sx sy sz a l dr 0 st).decorations,
      ∀ c, d.color = some c → c ∈ HSR_PALETTE := by
  obtain ⟨d0, h1, _, _, h4, _, _, _, _⟩ :=
    generateBranch_zero_deco_spec colors sx sy sz a l dr st hr
  rw [h1]
  intro d hd
  rcases List.mem_append.mp hd with hd | hd
  · exact hinv d hd
  · have hdd : d = d0 := by simpa using hd
    subst hdd
    exact h4 he

theorem treeIter_colors (colors : List String) (he : richFilter colors = [])
    (i : ℕ) (st : GenState) (hr : RandInRange st.rand)
    (hinv : ∀ d ∈ st.decorations, ∀ c, d.color = some c → c ∈ HSR_PALETTE) :
    ∀ d ∈ (treeIter colors i st).decorations, ∀ c, d.color = some c → c ∈ HSR_PALETTE := by
  rw [treeIter]
  exact generateBranch_zero_colors colors he 0 _ 0 _ _ _ _ hr hinv

theorem treeLoop_colors_fallback (colors : List String) (he : richFilter colors = []) :
    ∀ n i st, RandInRange st.rand →
      (∀ d ∈ st.decorations, ∀ c, d.color = some c → c ∈ HSR_PALETTE) →
      ∀ d ∈ (treeLoop colors n i st).decorations,
        ∀ c, d.color = some c → c ∈ HSR_PALETTE := by
  intro n
  induction n with
  | zero =>
      intro i st _ hinv
      simpa [treeLoop] using hinv
  | succ n ih =>
      intro i st hr hinv
      simp only [treeLoop]
      exact ih _ _ (randInRange_of_stream_eq (treeIter_stream colors i st) hr)
        (treeIter_colors colors he i st hr hinv)

/-! ## Bounded-recursion equivalence (C6 support) -/

theorem spurStepF_succ (fuel : ℕ) (colors : List String) (dA l pr : ℝ) (d : ℕ) (s : ℕ)
    (cx cy cz : ℝ) (st1 : GenState) :
    spurStepF fuel colors dA l pr (d + 1) s cx cy cz st1 = st1 := by
  rw [spurStepF, dif_neg (by omega : ¬(d + 1 = 0))]

theorem segLoopF_succ_eq (fuel : ℕ) (colors : List String) (dA l dr : ℝ) (d : ℕ)
    (dX dZ : ℝ) :
    ∀ k s cx cy cz dY st,
      segLoopF fuel colors dA l dr (d + 1) dX dZ k s cx cy cz dY st
        = segLoop colors dA l dr (d + 1) dX dZ k s cx cy cz dY st := by
  intro k
  induction k with
  | zero =>
      intro s cx cy cz dY st
      rw [segLoopF, segLoop]
  | succ k ih =>
      intro s cx cy cz dY st
      have hne : ¬(d + 1 = 0) := by omega
      simp only [segLoopF, segLoop, if_neg hne, spurStep_succ, spurStepF_succ]
      exact ih _ _ _ _ _ _

theorem generateBranchF_succ_eq (fuel : ℕ) (colors : List String) (sx sy sz a l dr : ℝ)
    (d : ℕ) (st : GenState) :
    generateBranchF fuel colors sx sy sz a l dr (d + 1) st
      = generateBranch colors sx sy sz a l dr (d + 1) st := by
  rw [generateBranchF, generateBranch, segLoopF_succ_eq]

theorem spurStepF_one_zero (colors : List String) (dA l pr : ℝ) (s : ℕ)
    (cx cy cz : ℝ) (st1 : GenState) :
    spurStepF 1 colors dA l pr 0 s cx cy cz st1 = spurStep colors dA l pr 0 s cx cy cz st1 := by
  rw [spurStepF, spurStep, dif_pos rfl, dif_pos rfl]
  dsimp only
  by_cases h : st1.rand.peek < 0.45 ∧ 1 < s
  · rw [if_pos h, if_pos h, dif_neg one_ne_zero, generateBranchF_succ_eq]
  · rw [if_neg h, if_neg h]

theorem segLoopF_one_zero (colors : List String) (dA l dr dX dZ : ℝ) :
    ∀ k s cx cy cz dY st,
      segLoopF 1 colors dA l dr 0 dX dZ k s cx cy cz dY st
        = segLoop colors dA l dr 0 dX dZ k s cx cy cz dY st := by
  intro k
  induction k with
  | zero =>
      intro s cx cy cz dY st
      rw [segLoopF, segLoop]
  | succ k ih =>
      intro s cx cy cz dY st
      simp only [segLoopF, segLoop, spurStepF_one_zero]
      exact ih _ _ _ _ _ _

theorem generateBranchF_one_zero (colors : List String) (sx sy sz a l dr : ℝ)
    (st : GenState) :
    generateBranchF 1 colors sx sy sz a l dr 0 st
      = generateBranch colors sx sy sz a l dr 0 st := by
  rw [generateBranchF, generateBranch, segLoopF_one_zero]

/-! ## Claims about the tree generator -/

/-- C4 (amended): every depth-0 (main) branch invocation appends exactly
one decoration, whose kind is chosen by comparing the single uniform draw
made after the segment walk against the fixed bands (photo above 0.96,
bell above 0.8, spinning star above 0.6, twinkling bauble above 0.4, else
plain bauble), and whose x/z position sits at the branch tip. A bell's
color is always drawn from the fixed accent palette, every other colored
decoration's color is drawn from the color pool — the supplied palette's
non-white entries plus two fixed accent colors — so every carried color is
a non-white supplied-palette color or a fixed accent color, and only when
the supplied palette has no non-white entries does the pool reduce to
accent colors alone. -/
theorem mainBranch_decoration (colors : List String) (sx sy sz a l dr : ℝ)
    (st : GenState) (hr : RandInRange st.rand) :
    ∃ d : DecorationData,
      (generateBranch colors sx sy sz a l dr 0 st).decorations = st.decorations ++ [d]
      ∧ d.type = decoBand
          ((segLoop colors a l dr 0 (Real.cos a) (Real.sin a) 15 0 sx sy sz
            0.25 st).2.rand.peek)
      ∧ (∀ c, d.color = some c →
          (c ∈ colors ∨ c ∈ HSR_PALETTE) ∧ c ≠ "#FFFFFF" ∧ c ≠ "#ffffff")
      ∧ (richFilter colors = [] → ∀ c, d.color = some c → c ∈ HSR_PALETTE)
      ∧ (d.type = DecoType.bell → ∀ c, d.color = some c → c ∈ HSR_PALETTE)
      ∧ (d.type ≠ DecoType.bell → ∀ c, d.color = some c → c ∈ colorPool colors)
      ∧ d.position.1 = (segLoop colors a l dr 0 (Real.cos a) (Real.sin a) 15 0 sx sy sz
            0.25 st).1.1 + Real.cos a * 0.2
      ∧ d.position.2.2 = (segLoop colors a l dr 0 (Real.cos a) (Real.sin a) 15 0 sx sy sz
            0.25 st).1.2.2 + Real.sin a * 0.2 :=
  generateBranch_zero_deco_spec colors sx sy sz a l dr st hr

/-- C4 witness: the decoration property evaluated at a concrete palette,
start position and the all-zero random source. -/
theorem mainBranch_decoration_witness :
    RandInRange (initialState (constRand 0)).rand
    ∧ ∃ d : DecorationData,
        (generateBranch ["#FF0000"] 0 0 0 0 0 0 0 (initialState (constRand 0))).decorations
          = (initialState (constRand 0)).decorations ++ [d]
        ∧ d.type = decoBand
            ((segLoopF 1 ["#FF0000"] 0 0 0 0 (Real.cos 0) (Real.sin 0) 15 0 0 0 0
              0.25 (initialState (constRand 0))).2.rand.peek)
        ∧ (∀ c, d.color = some c →
            (c ∈ ["#FF0000"] ∨ c ∈ HSR_PALETTE) ∧ c ≠ "#FFFFFF" ∧ c ≠ "#ffffff")
        ∧ (richFilter ["#FF0000"] = [] → ∀ c, d.color = some c → c ∈ HSR_PALETTE)
        ∧ (d.type = DecoType.bell → ∀ c, d.color = some c → c ∈ HSR_PALETTE)
        ∧ (d.type ≠ DecoType.bell → ∀ c, d.color = some c → c ∈ colorPool ["#FF0000"])
        ∧ d.position.1 = (segLoopF 1 ["#FF0000"] 0 0 0 0 (Real.cos 0) (Real.sin 0) 15 0 0 0 0
              0.25 (initialState (constRand 0))).1.1 + Real.cos 0 * 0.2
        ∧ d.position.2.2 = (segLoopF 1 ["#FF0000"] 0 0 0 0 (Real.cos 0) (Real.sin 0) 15 0 0 0 0
              0.25 (initialState (constRand 0))).1.2.2 + Real.sin 0 * 0.2 := by
  have h2 : RandInRange (initialState (constRand 0)).rand :=
    fun n => ⟨le_refl 0, show (0 : ℚ) < 1 by norm_num⟩
  have h := mainBranch_decoration ["#FF0000"] 0 0 0 0 0 0 (initialState (constRand 0)) h2
  rw [segLoopF_one_zero]
  exact ⟨h2, h⟩

/-- C4 counterexample: under the supplied palette ["#FF0000"] — which has a
non-white entry, so the claimed fallback clause does not apply — a main
branch grown from the constant random source 9/10 receives a bell whose
color is the fixed accent "#D0D0FF", a color not in the supplied palette:
decoration colors are not confined to the supplied palette's non-white
entries, because the bell always draws from the accent palette and the
color pool always contains two accent colors. -/
theorem mainBranch_decoration_accent_leak :
    richFilter ["#FF0000"] ≠ []
    ∧ ∃ d ∈ (generateBranch ["#FF0000"] 0 0 0 0 0 0 0
          (initialState (constRand (9/10)))).decorations,
        d.color = some "#D0D0FF" ∧ "#D0D0FF" ∉ ["#FF0000"] := by
  refine ⟨by decide, ?_⟩
  have hst : (segLoop ["#FF0000"] 0 0 0 0 (Real.cos 0) (Real.sin 0) 15 0 0 0 0 0.25
      (initialState (constRand (9/10)))).2.rand.stream = fun _ => (9/10 : ℚ) :=
    (segLoop_zero_effects ["#FF0000"] 0 0 0 (Real.cos 0) (Real.sin 0) 15 0 0 0 0 0.25
      (initialState (constRand (9/10)))).2.1
  have hpk : (segLoop ["#FF0000"] 0 0 0 0 (Real.cos 0) (Real.sin 0) 15 0 0 0 0 0.25
      (initialState (constRand (9/10)))).2.rand.peek = (9/10 : ℚ) := peek_of_const hst
  have hpk2 : (segLoop ["#FF0000"] 0 0 0 0 (Real.cos 0) (Real.sin 0) 15 0 0 0 0 0.25
      (initialState (constRand (9/10)))).2.rand.advance.advance.peek = (9/10 : ℚ) :=
    peek_advance_advance_of_const hst
  have hfl : ⌊(9/10 : ℚ) * (HSR_PALETTE.length : ℚ)⌋ = 4 := by norm_num [HSR_PALETTE]
  rw [generateBranch, if_pos rfl]
  simp only [placeDecoration]
  rw [hpk, hpk2]
  rw [if_neg (by norm_num : ¬((0.96 : ℚ) < 9/10)), if_pos (by norm_num : (0.8 : ℚ) < 9/10)]
  rw [hfl]
  exact ⟨_, List.mem_append_right _ (List.mem_singleton_self _), by decide, by decide⟩

/-- C5 counterexample: the decoration count of the generator is identical
for every pair of random sources (always 140), refuting the claimed
non-determinism of the decoration count across repeated calls. -/
theorem useTreeData_deco_count_deterministic :
    ¬ ∃ r1 r2 : Rand,
        (useTreeData defaultColors r1).decorations.length
          ≠ (useTreeData defaultColors r2).decorations.length := by
  rintro ⟨r1, r2, h⟩
  rw [useTreeData_deco_len, useTreeData_deco_len] at h
  exact h rfl

/-- C5 (amended): for every palette the decoration count is deterministic,
exactly one per main branch (140), while the point cloud size is
non-deterministic across repeated calls (two random sources are exhibited
whose point counts differ); both quantities are bounded above by branch
count times max segments times density-per-depth
(140 × 15 × 20 main-branch points plus 140 × 13 × 15 × 8 spur points,
that is 260400). -/
theorem useTreeData_size_bounds :
    (∀ (colors : List String) (r : Rand), (useTreeData colors r).decorations.length = 140)
    ∧ (∀ (colors : List String) (r : Rand), (useTreeData colors r).points.length ≤ 260400)
    ∧ ∃ r1 r2 : Rand,
        (useTreeData defaultColors r1).points.length
          ≠ (useTreeData defaultColors r2).points.length := by
  refine ⟨useTreeData_deco_len, useTreeData_points_le, constRand (1 / 2), constRand 0, ?_⟩
  rw [useTreeData_points_const, useTreeData_points_const]
  norm_num

/-- C6: the branch-generation recursion is bounded at one level of
nesting, and spur sub-branches spawn only from depth-0 invocations. A
sub-branch invocation (depth at least 1) coincides with the explicitly
budget-bounded generator at every budget, even zero (it never recurses,
and for every outcome of the random source it contributes exactly its own
15 × 8 foliage points and no decoration), and a main (depth-0) invocation
coincides with the bounded generator at budget 1, so the generator
terminates for every palette and every outcome of the random source. -/
theorem generateBranch_one_level_recursion :
    (∀ (fuel : ℕ) (colors : List String) (sx sy sz a l dr : ℝ) (d : ℕ) (st : GenState),
        generateBranchF fuel colors sx sy sz a l dr (d + 1) st
          = generateBranch colors sx sy sz a l dr (d + 1) st)
    ∧ (∀ (colors : List String) (sx sy sz a l dr : ℝ) (st : GenState),
        generateBranchF 1 colors sx sy sz a l dr 0 st
          = generateBranch colors sx sy sz a l dr 0 st)
    ∧ (∀ (colors : List String) (sx sy sz a l dr : ℝ) (d : ℕ) (st : GenState),
        (generateBranch colors sx sy sz a l dr (d + 1) st).points.length
          = st.points.length + 120
        ∧ (generateBranch colors sx sy sz a l dr (d + 1) st).decorations
          = st.decorations) :=
  ⟨fun fuel colors sx sy sz a l dr d st =>
      generateBranchF_succ_eq fuel colors sx sy sz a l dr d st,
    fun colors sx sy sz a l dr st => generateBranchF_one_zero colors sx sy sz a l dr st,
    fun colors sx sy sz a l dr d st =>
      ⟨generateBranch_succ_points colors sx sy sz a l dr d st,
        generateBranch_succ_deco colors sx sy sz a l dr d st⟩⟩

/-- C7: for a degenerate palette — one with no non-white entry, which
covers the empty palette and an all-white palette — generation completes
(the generator is a total function), still populates exactly 140
decorations, and every color any decoration carries is substituted from
the fixed accent palette. -/
theorem useTreeData_degenerate_palette (colors : List String) (r : Rand)
    (he : richFilter colors = []) (hr : RandInRange r) :
    (useTreeData colors r).decorations.length = 140
    ∧ ∀ d ∈ (useTreeData colors r).decorations,
        ∀ c, d.color = some c → c ∈ HSR_PALETTE := by
  refine ⟨useTreeData_deco_len colors r, ?_⟩
  rw [useTreeData]
  exact treeLoop_colors_fallback colors he 140 0 (initialState r) hr
    (by simp [initialState])

/-- C7 witness: the degenerate-palette property evaluated at the empty
palette and the all-zero random source. -/
theorem useTreeData_degenerate_palette_witness :
    (richFilter [] = [] ∧ RandInRange (constRand 0))
    ∧ ((useTreeData [] (constRand 0)).decorations.length = 140
        ∧ ∀ d ∈ (useTreeData [] (constRand 0)).decorations,
            ∀ c, d.color = some c → c ∈ HSR_PALETTE) := by
  have h1 : richFilter ([] : List String) = [] := rfl
  have h2 : RandInRange (constRand 0) := fun n => ⟨le_refl 0, show (0 : ℚ) < 1 by norm_num⟩
  exact ⟨⟨h1, h2⟩, useTreeData_degenerate_palette [] (constRand 0) h1 h2⟩

end YL
